import Mathlib

/-!
Shallow embedding of `src/signature.rs` from the jwt-explorer repository:
the signature-algorithm catalog (`SignatureTypes`), its `Display` impl,
the header resolver (`SignatureTypes::from_header`), the family classifier
(`SignatureTypes::class`) and the signature engine (`calc_signature`),
together with the HMAC-SHA-2 / base64url primitives those functions call
(the `hmac`, `crypto_hashes::sha2` and `base64` crates, modelled from
FIPS 180-4, RFC 2104 and RFC 4648 §5 which those crates implement).

Machine words are `Nat` with explicit reduction `% 2^32` / `% 2^64`;
byte strings are `List Nat` of values `< 256`.
-/

namespace Jwt

/-- The `SignatureTypes` enum of `signature.rs` (the asymmetric variants
`Rs*`/`Es*`/`Ps*` are commented out in the source and therefore absent). -/
inductive SignatureTypes where
  | Auto
  | Retain
  | None
  | Hs256
  | Hs384
  | Hs512

deriving instance DecidableEq, Repr for SignatureTypes

/-- The `SignatureClass` enum of `signature.rs`. -/
inductive SignatureClass where
  | Other
  | Pubkey
  | Hmac

deriving instance DecidableEq, Repr for SignatureClass

/-- The `Display` impl for `SignatureTypes`: `Auto` displays as `"Auto"`,
every other variant as its debug name uppercased. -/
def sigDisplay : SignatureTypes → String
  | .Auto => "Auto"
  | .Retain => "RETAIN"
  | .None => "NONE"
  | .Hs256 => "HS256"
  | .Hs384 => "HS384"
  | .Hs512 => "HS512"

/-- The iteration order of `SignatureTypes::iter()` (strum `EnumIter`:
declaration order). -/
def sigIter : List SignatureTypes :=
  [.Auto, .Retain, .None, .Hs256, .Hs384, .Hs512]

/-- Rust `str::to_uppercase`, restricted to its behaviour on ASCII
strings (the only strings the catalog's textual forms involve):
uppercase every character. -/
def toUppercase (s : String) : String :=
  ⟨s.data.map Char.toUpper⟩

/-- The `for sig in SignatureTypes::iter()` loop body of `from_header`:
`ret` starts as `Auto` and the first variant whose display string equals
the (already uppercased) header wins via `break`. -/
def firstMatch (header : String) : List SignatureTypes → SignatureTypes
  | [] => .Auto
  | s :: rest => if header = sigDisplay s then s else firstMatch header rest

/-- `SignatureTypes::from_header`: uppercase the header's `alg` string,
scan the catalog for a display-string match, and turn the `Auto` sentinel
into `none`. The argument is the header's `alg` field (the only field
`from_header` reads from the `JwtHeader`). -/
def fromHeader (alg : String) : Option SignatureTypes :=
  let header := toUppercase alg
  let ret := firstMatch header sigIter
  if ret = SignatureTypes.Auto then none else some ret

/-- Byte-wise prefix test on character lists (`true` iff the first list
is a prefix of the second). -/
def prefixMatches : List Char → List Char → Bool
  | [], _ => true
  | _ :: _, [] => false
  | p :: ps, c :: cs => p = c && prefixMatches ps cs

/-- Scan for the pattern at every suffix: `true` iff `pat` occurs as a
contiguous substring. -/
def scanContains (pat : List Char) : List Char → Bool
  | [] => prefixMatches pat []
  | c :: cs => prefixMatches pat (c :: cs) || scanContains pat cs

/-- Rust `str::contains(&str)`: substring containment. -/
def strContains (s pat : String) : Bool :=
  scanContains pat.data s.data

/-- `SignatureTypes::class`: `None ↦ Other`, `Hs256/384/512 ↦ Hmac`, and
for `Auto`/`Retain` a substring scan of the raw header text for `"HS"`,
`"hs"` (→ `Hmac`) then `"RS"`, `"rs"`, `"ES"`, `"es"` (→ `Pubkey`),
defaulting to `Other`. (Named `sigClass` since `class` is a Lean keyword.) -/
def sigClass (t : SignatureTypes) (jwtHeader : String) : SignatureClass :=
  match t with
  | .None => .Other
  | .Hs256 | .Hs384 | .Hs512 => .Hmac
  | .Auto | .Retain =>
    if strContains jwtHeader "HS" || strContains jwtHeader "hs" then
      .Hmac
    else if strContains jwtHeader "RS" || strContains jwtHeader "rs"
        || strContains jwtHeader "ES" || strContains jwtHeader "es" then
      .Pubkey
    else
      .Other

/-! ## Byte-level primitives: UTF-8, SHA-2, HMAC, base64url -/

/-- UTF-8 encoding of a single character (what Rust `str::as_bytes`
exposes per character), as a list of byte values. -/
def utf8EncodeCharBytes (c : Char) : List Nat :=
  let n := c.toNat
  if n < 128 then [n]
  else if n < 2048 then [192 + n / 64, 128 + n % 64]
  else if n < 65536 then [224 + n / 4096, 128 + n / 64 % 64, 128 + n % 64]
  else [240 + n / 262144, 128 + n / 4096 % 64, 128 + n / 64 % 64, 128 + n % 64]

/-- Rust `str::as_bytes`: the UTF-8 byte sequence of a string. -/
def utf8Bytes (s : String) : List Nat :=
  (s.data.map utf8EncodeCharBytes).flatten

/-- Big-endian byte serialization of `v` into exactly `n` bytes. -/
def beBytes : Nat → Nat → List Nat
  | 0, _ => []
  | n + 1, v => beBytes n (v / 256) ++ [v % 256]

/-- Merkle–Damgård padding (FIPS 180-4 §5.1): append `0x80`, zero bytes
up to the length field, then the bit length in `lenBytes` big-endian
bytes, reaching a multiple of `blockSize`. -/
def padMsg (blockSize lenBytes : Nat) (msg : List Nat) : List Nat :=
  let l := msg.length
  let k := (blockSize - (l + 1 + lenBytes) % blockSize) % blockSize
  msg ++ [128] ++ List.replicate k 0 ++ beBytes lenBytes (l * 8)

/-- Split a byte list into `size`-byte chunks; the first argument is
fuel (call with the list length). -/
def chunks (size : Nat) : Nat → List Nat → List (List Nat)
  | 0, _ => []
  | _, [] => []
  | fuel + 1, l => l.take size :: chunks size fuel (l.drop size)

/-- Combine bytes into big-endian 32-bit words. -/
def bytesToWords32 : List Nat → List Nat
  | a :: b :: c :: d :: rest =>
    (((a * 256 + b) * 256 + c) * 256 + d) :: bytesToWords32 rest
  | _ => []

/-- Combine bytes into big-endian 64-bit words. -/
def bytesToWords64 : List Nat → List Nat
  | a :: b :: c :: d :: e :: f :: g :: h :: rest =>
    (((((((a * 256 + b) * 256 + c) * 256 + d) * 256 + e) * 256 + f) * 256
        + g) * 256 + h) :: bytesToWords64 rest
  | _ => []

def w32 : Nat := 4294967296

def w64 : Nat := 18446744073709551616

/-- Rotate a 32-bit word right by `n`. -/
def rotr32 (n a : Nat) : Nat := a % w32 / 2 ^ n + a % 2 ^ n * 2 ^ (32 - n)

/-- Rotate a 64-bit word right by `n`. -/
def rotr64 (n a : Nat) : Nat := a % w64 / 2 ^ n + a % 2 ^ n * 2 ^ (64 - n)

/-- Bitwise complement of a 32-bit word. -/
def not32 (a : Nat) : Nat := w32 - 1 - a % w32

/-- Bitwise complement of a 64-bit word. -/
def not64 (a : Nat) : Nat := w64 - 1 - a % w64

/-- FIPS 180-4 `Ch(x,y,z) = (x ∧ y) ⊕ (¬x ∧ z)` (32-bit). -/
def ch32 (x y z : Nat) : Nat := (x &&& y) ^^^ (not32 x &&& z)

/-- FIPS 180-4 `Maj(x,y,z)` (32-bit). -/
def maj32 (x y z : Nat) : Nat := ((x &&& y) ^^^ (x &&& z)) ^^^ (y &&& z)

def bSig0_32 (x : Nat) : Nat := (rotr32 2 x ^^^ rotr32 13 x) ^^^ rotr32 22 x

def bSig1_32 (x : Nat) : Nat := (rotr32 6 x ^^^ rotr32 11 x) ^^^ rotr32 25 x

def sSig0_32 (x : Nat) : Nat := (rotr32 7 x ^^^ rotr32 18 x) ^^^ x % w32 / 2 ^ 3

def sSig1_32 (x : Nat) : Nat := (rotr32 17 x ^^^ rotr32 19 x) ^^^ x % w32 / 2 ^ 10

def ch64 (x y z : Nat) : Nat := (x &&& y) ^^^ (not64 x &&& z)

def maj64 (x y z : Nat) : Nat := ((x &&& y) ^^^ (x &&& z)) ^^^ (y &&& z)

def bSig0_64 (x : Nat) : Nat := (rotr64 28 x ^^^ rotr64 34 x) ^^^ rotr64 39 x

def bSig1_64 (x : Nat) : Nat := (rotr64 14 x ^^^ rotr64 18 x) ^^^ rotr64 41 x

def sSig0_64 (x : Nat) : Nat := (rotr64 1 x ^^^ rotr64 8 x) ^^^ x % w64 / 2 ^ 7

def sSig1_64 (x : Nat) : Nat := (rotr64 19 x ^^^ rotr64 61 x) ^^^ x % w64 / 2 ^ 6

/-- SHA-256 round constants (FIPS 180-4 §4.2.2). -/
def K256 : List Nat :=
  [1116352408, 1899447441, 3049323471, 3921009573, 961987163,
   1508970993, 2453635748, 2870763221, 3624381080, 310598401,
   607225278, 1426881987, 1925078388, 2162078206, 2614888103,
   3248222580, 3835390401, 4022224774, 264347078, 604807628,
   770255983, 1249150122, 1555081692, 1996064986, 2554220882,
   2821834349, 2952996808, 3210313671, 3336571891, 3584528711,
   113926993, 338241895, 666307205, 773529912, 1294757372,
   1396182291, 1695183700, 1986661051, 2177026350, 2456956037,
   2730485921, 2820302411, 3259730800, 3345764771, 3516065817,
   3600352804, 4094571909, 275423344, 430227734, 506948616,
   659060556, 883997877, 958139571, 1322822218, 1537002063,
   1747873779, 1955562222, 2024104815, 2227730452, 2361852424,
   2428436474, 2756734187, 3204031479, 3329325298]

/-- SHA-512 round constants (FIPS 180-4 §4.2.3). -/
def K512 : List Nat :=
  [4794697086780616226, 8158064640168781261, 13096744586834688815,
   16840607885511220156, 4131703408338449720, 6480981068601479193,
   10538285296894168987, 12329834152419229976, 15566598209576043074,
   1334009975649890238, 2608012711638119052, 6128411473006802146,
   8268148722764581231, 9286055187155687089, 11230858885718282805,
   13951009754708518548, 16472876342353939154, 17275323862435702243,
   1135362057144423861, 2597628984639134821, 3308224258029322869,
   5365058923640841347, 6679025012923562964, 8573033837759648693,
   10970295158949994411, 12119686244451234320, 12683024718118986047,
   13788192230050041572, 14330467153632333762, 15395433587784984357,
   489312712824947311, 1452737877330783856, 2861767655752347644,
   3322285676063803686, 5560940570517711597, 5996557281743188959,
   7280758554555802590, 8532644243296465576, 9350256976987008742,
   10552545826968843579, 11727347734174303076, 12113106623233404929,
   14000437183269869457, 14369950271660146224, 15101387698204529176,
   15463397548674623760, 17586052441742319658, 1182934255886127544,
   1847814050463011016, 2177327727835720531, 2830643537854262169,
   3796741975233480872, 4115178125766777443, 5681478168544905931,
   6601373596472566643, 7507060721942968483, 8399075790359081724,
   8693463985226723168, 9568029438360202098, 10144078919501101548,
   10430055236837252648, 11840083180663258601, 13761210420658862357,
   14299343276471374635, 14566680578165727644, 15097957966210449927,
   16922976911328602910, 17689382322260857208, 500013540394364858,
   748580250866718886, 1242879168328830382, 1977374033974150939,
   2944078676154940804, 3659926193048069267, 4368137639120453308,
   4836135668995329356, 5532061633213252278, 6448918945643986474,
   6902733635092675308, 7801388544844847127]

/-- SHA-256 initial hash value (FIPS 180-4 §5.3.3). -/
def initH256 : List Nat :=
  [1779033703, 3144134277, 1013904242, 2773480762, 1359893119,
   2600822924, 528734635, 1541459225]

/-- SHA-384 initial hash value (FIPS 180-4 §5.3.4). -/
def initH384 : List Nat :=
  [14680500436340154072, 7105036623409894663, 10473403895298186519,
   1526699215303891257, 7436329637833083697, 10282925794625328401,
   15784041429090275239, 5167115440072839076]

/-- SHA-512 initial hash value (FIPS 180-4 §5.3.5). -/
def initH512 : List Nat :=
  [7640891576956012808, 13503953896175478587, 4354685564936845355,
   11912009170470909681, 5840696475078001361, 11170449401992604703,
   2270897969802886507, 6620516959819538809]

/-- Message-schedule extension, one word per fuel step; the accumulator
holds the schedule so far, newest word first. -/
def extendLoop32 : Nat → List Nat → List Nat
  | 0, acc => acc.reverse
  | fuel + 1, acc =>
    let wt := (sSig1_32 (acc.getD 1 0) + acc.getD 6 0
        + sSig0_32 (acc.getD 14 0) + acc.getD 15 0) % w32
    extendLoop32 fuel (wt :: acc)

/-- The 64-word SHA-256 message schedule of one 64-byte block. -/
def schedule32 (block : List Nat) : List Nat :=
  extendLoop32 48 (bytesToWords32 block).reverse

def extendLoop64 : Nat → List Nat → List Nat
  | 0, acc => acc.reverse
  | fuel + 1, acc =>
    let wt := (sSig1_64 (acc.getD 1 0) + acc.getD 6 0
        + sSig0_64 (acc.getD 14 0) + acc.getD 15 0) % w64
    extendLoop64 fuel (wt :: acc)

/-- The 80-word SHA-512 message schedule of one 128-byte block. -/
def schedule64 (block : List Nat) : List Nat :=
  extendLoop64 64 (bytesToWords64 block).reverse

/-- One SHA-256 round: the state is the working-variable list
`[a,b,c,d,e,f,g,h]`, `kw` the round constant paired with the schedule
word. -/
def roundStep32 (st : List Nat) (kw : Nat × Nat) : List Nat :=
  match st with
  | [a, b, c, d, e, f, g, h] =>
    let t1 := (h + bSig1_32 e + ch32 e f g + kw.1 + kw.2) % w32
    let t2 := (bSig0_32 a + maj32 a b c) % w32
    [(t1 + t2) % w32, a, b, c, (d + t1) % w32, e, f, g]
  | other => other

def roundStep64 (st : List Nat) (kw : Nat × Nat) : List Nat :=
  match st with
  | [a, b, c, d, e, f, g, h] =>
    let t1 := (h + bSig1_64 e + ch64 e f g + kw.1 + kw.2) % w64
    let t2 := (bSig0_64 a + maj64 a b c) % w64
    [(t1 + t2) % w64, a, b, c, (d + t1) % w64, e, f, g]
  | other => other

/-- SHA-256 compression of one block into the running hash value. -/
def compressBlock32 (st block : List Nat) : List Nat :=
  let final := (K256.zip (schedule32 block)).foldl roundStep32 st
  (st.zip final).map (fun p => (p.1 + p.2) % w32)

/-- SHA-512 compression of one block into the running hash value. -/
def compressBlock64 (st block : List Nat) : List Nat :=
  let final := (K512.zip (schedule64 block)).foldl roundStep64 st
  (st.zip final).map (fun p => (p.1 + p.2) % w64)

/-- Serialize a 32-bit word as four big-endian bytes. -/
def wordBytes4 (w : Nat) : List Nat :=
  [w / 16777216 % 256, w / 65536 % 256, w / 256 % 256, w % 256]

/-- Serialize a 64-bit word as eight big-endian bytes. -/
def wordBytes8 (w : Nat) : List Nat :=
  [w / 72057594037927936 % 256, w / 281474976710656 % 256,
   w / 1099511627776 % 256, w / 4294967296 % 256,
   w / 16777216 % 256, w / 65536 % 256, w / 256 % 256, w % 256]

/-- SHA-256 of a byte string (FIPS 180-4), as 32 bytes. -/
def sha256 (msg : List Nat) : List Nat :=
  let padded := padMsg 64 8 msg
  let blocks := chunks 64 padded.length padded
  let st := blocks.foldl compressBlock32 initH256
  wordBytes4 (st.getD 0 0) ++ wordBytes4 (st.getD 1 0) ++ wordBytes4 (st.getD 2 0)
    ++ wordBytes4 (st.getD 3 0) ++ wordBytes4 (st.getD 4 0) ++ wordBytes4 (st.getD 5 0)
    ++ wordBytes4 (st.getD 6 0) ++ wordBytes4 (st.getD 7 0)

/-- SHA-512 of a byte string (FIPS 180-4), as 64 bytes. -/
def sha512 (msg : List Nat) : List Nat :=
  let padded := padMsg 128 16 msg
  let blocks := chunks 128 padded.length padded
  let st := blocks.foldl compressBlock64 initH512
  wordBytes8 (st.getD 0 0) ++ wordBytes8 (st.getD 1 0) ++ wordBytes8 (st.getD 2 0)
    ++ wordBytes8 (st.getD 3 0) ++ wordBytes8 (st.getD 4 0) ++ wordBytes8 (st.getD 5 0)
    ++ wordBytes8 (st.getD 6 0) ++ wordBytes8 (st.getD 7 0)

/-- SHA-384 of a byte string (FIPS 180-4): SHA-512 with its own initial
value, truncated to the first six words (48 bytes). -/
def sha384 (msg : List Nat) : List Nat :=
  let padded := padMsg 128 16 msg
  let blocks := chunks 128 padded.length padded
  let st := blocks.foldl compressBlock64 initH384
  wordBytes8 (st.getD 0 0) ++ wordBytes8 (st.getD 1 0) ++ wordBytes8 (st.getD 2 0)
    ++ wordBytes8 (st.getD 3 0) ++ wordBytes8 (st.getD 4 0) ++ wordBytes8 (st.getD 5 0)

/-- HMAC (RFC 2104) over an arbitrary hash with the given block size.
A key longer than a block is hashed first; any key length is accepted,
matching `Hmac::new_from_slice`, which never fails for an HMAC. -/
def hmac (hashFn : List Nat → List Nat) (blockSize : Nat) (key msg : List Nat) : List Nat :=
  let k0 := if blockSize < key.length then hashFn key else key
  let kp := k0 ++ List.replicate (blockSize - k0.length) 0
  let ipadded := kp.map (fun b => b % 256 ^^^ 54)
  let opadded := kp.map (fun b => b % 256 ^^^ 92)
  hashFn (opadded ++ hashFn (ipadded ++ msg))

def hmacSha256 (key msg : List Nat) : List Nat := hmac sha256 64 key msg

def hmacSha384 (key msg : List Nat) : List Nat := hmac sha384 128 key msg

def hmacSha512 (key msg : List Nat) : List Nat := hmac sha512 128 key msg

/-- The base64url alphabet (RFC 4648 §5). -/
def b64Alphabet : List Char :=
  "ABCDEFGHIJKLMNOPQRSTUVWXYZabcdefghijklmnopqrstuvwxyz0123456789-_".data

def b64Char (n : Nat) : Char := b64Alphabet.getD n 'A'

/-- Unpadded base64url encoding of a byte list (RFC 4648 §5, no `=`),
three input bytes per four output characters. -/
def b64urlNoPadChars : List Nat → List Char
  | [] => []
  | [a] => [b64Char (a / 4), b64Char (a % 4 * 16)]
  | [a, b] => [b64Char (a / 4), b64Char (a % 4 * 16 + b / 16), b64Char (b % 16 * 4)]
  | a :: b :: c :: rest =>
    b64Char (a / 4) :: b64Char (a % 4 * 16 + b / 16)
      :: b64Char (b % 16 * 4 + c / 64) :: b64Char (c % 64)
      :: b64urlNoPadChars rest

/-- `base64::encode_config(_, URL_SAFE_NO_PAD)` as used in `calc_signature`. -/
def b64urlNoPad (bs : List Nat) : String :=
  ⟨b64urlNoPadChars bs⟩

/-- `calc_signature` of `signature.rs`. The `map_err` on
`Hmac::new_from_slice` is dead code for HMAC (every key length is
accepted, RFC 2104), so the three `Hs*` arms are total here; the `_`
fallthrough arm of the Rust `match` only catches `Auto`. -/
def calcSignature (payload secret originalSignature : String)
    (hashType : SignatureTypes) : Except String String :=
  match hashType with
  | .Retain => .ok originalSignature
  | .Hs256 => .ok (b64urlNoPad (hmacSha256 (utf8Bytes secret) (utf8Bytes payload)))
  | .Hs384 => .ok (b64urlNoPad (hmacSha384 (utf8Bytes secret) (utf8Bytes payload)))
  | .Hs512 => .ok (b64urlNoPad (hmacSha512 (utf8Bytes secret) (utf8Bytes payload)))
  | .None => .ok ""
  | .Auto => .error ("Unrecognised signature type: " ++ sigDisplay .Auto)

/-- `Except.isOk` specialised to the engine's result type. -/
def resultIsOk : Except String String → Bool
  | .ok _ => true
  | .error _ => false

/-- Character count of the unpadded base64url encoding of `n` bytes. -/
def b64EncLen : Nat → Nat
  | 0 => 0
  | 1 => 2
  | 2 => 3
  | n + 3 => 4 + b64EncLen n

/-! ## Helper lemmas -/

theorem prefixMatches_iff (p l : List Char) : prefixMatches p l = true ↔ p <+: l := by
  induction p generalizing l with
  | nil => simp [prefixMatches, List.nil_prefix]
  | cons a ps ih =>
    cases l with
    | nil => simp [prefixMatches]
    | cons c cs => simp [prefixMatches, List.cons_prefix_cons, ih]

theorem scanContains_iff (p l : List Char) : scanContains p l = true ↔ p <:+: l := by
  induction l with
  | nil => simp [scanContains, prefixMatches_iff, List.prefix_nil, List.infix_nil]
  | cons c cs ih => simp [scanContains, prefixMatches_iff, ih, List.infix_cons_iff]

theorem strContains_iff (s pat : String) : strContains s pat = true ↔ pat.data <:+: s.data :=
  scanContains_iff pat.data s.data

theorem sha256_length (m : List Nat) : (sha256 m).length = 32 := by
  simp [sha256, wordBytes4]

theorem sha384_length (m : List Nat) : (sha384 m).length = 48 := by
  simp [sha384, wordBytes8]

theorem sha512_length (m : List Nat) : (sha512 m).length = 64 := by
  simp [sha512, wordBytes8]

theorem hmacSha256_length (k m : List Nat) : (hmacSha256 k m).length = 32 := by
  simp [hmacSha256, hmac, sha256_length]

theorem hmacSha384_length (k m : List Nat) : (hmacSha384 k m).length = 48 := by
  simp [hmacSha384, hmac, sha384_length]

theorem hmacSha512_length (k m : List Nat) : (hmacSha512 k m).length = 64 := by
  simp [hmacSha512, hmac, sha512_length]

theorem b64urlNoPadChars_length :
    ∀ bs : List Nat, (b64urlNoPadChars bs).length = b64EncLen bs.length
  | [] => rfl
  | [_] => rfl
  | [_, _] => rfl
  | _ :: _ :: _ :: rest => by
    have ih := b64urlNoPadChars_length rest
    have e : b64EncLen (rest.length + 1 + 1 + 1) = 4 + b64EncLen rest.length := rfl
    show (b64urlNoPadChars rest).length + 1 + 1 + 1 + 1 = b64EncLen (rest.length + 1 + 1 + 1)
    rw [e, ih]
    omega

/-- How `class` behaves on the two header-driven variants, stated on the
raw `strContains` scans. -/
theorem sigClass_auto_retain (t : SignatureTypes) (s : String)
    (ht : t = SignatureTypes.Auto ∨ t = SignatureTypes.Retain) :
    sigClass t s =
      (if strContains s "HS" || strContains s "hs" then SignatureClass.Hmac
       else if strContains s "RS" || strContains s "rs"
           || strContains s "ES" || strContains s "es" then SignatureClass.Pubkey
       else SignatureClass.Other) := by
  obtain rfl | rfl := ht <;> rfl

/-! ## Claim theorems -/

/-- C1 (counterexample): the raw header `"Hs256"` contains the marker
`HS` in mixed letter-casing, yet `class` on the `Auto` identifier puts
it in the `Other` family, not `Hmac`: the scan is not case-insensitive. -/
theorem classifier_mixed_case_counterexample :
    sigClass SignatureTypes.Auto "Hs256" = SignatureClass.Other ∧
      sigClass SignatureTypes.Auto "Hs256" ≠ SignatureClass.Hmac := by
  exact ⟨rfl, by decide⟩

/-- C1 (amended): for the `Auto` and `Retain` identifiers, `class`
scans the raw header for the markers in all-uppercase or all-lowercase
form only: a header containing `"HS"` or `"hs"` as a substring gives
`Hmac`; otherwise one containing `"RS"`, `"rs"`, `"ES"` or `"es"` gives
`Pubkey`; otherwise `Other`. The HS markers take priority. Mixed-case
markers such as `"Hs"` or `"hS"` do not match. -/
theorem classifier_marker_scan (t : SignatureTypes) (s : String)
    (ht : t = SignatureTypes.Auto ∨ t = SignatureTypes.Retain) :
    (("HS".data <:+: s.data ∨ "hs".data <:+: s.data) →
      sigClass t s = SignatureClass.Hmac) ∧
    (¬("HS".data <:+: s.data ∨ "hs".data <:+: s.data) →
      ("RS".data <:+: s.data ∨ "rs".data <:+: s.data
          ∨ "ES".data <:+: s.data ∨ "es".data <:+: s.data) →
        sigClass t s = SignatureClass.Pubkey) ∧
    (¬("HS".data <:+: s.data ∨ "hs".data <:+: s.data) →
      ¬("RS".data <:+: s.data ∨ "rs".data <:+: s.data
          ∨ "ES".data <:+: s.data ∨ "es".data <:+: s.data) →
        sigClass t s = SignatureClass.Other) := by
  have e := sigClass_auto_retain t s ht
  have hH : (strContains s "HS" || strContains s "hs") = true ↔
      ("HS".data <:+: s.data ∨ "hs".data <:+: s.data) := by
    simp [strContains_iff]
  have hR : (strContains s "RS" || strContains s "rs"
      || strContains s "ES" || strContains s "es") = true ↔
      ("RS".data <:+: s.data ∨ "rs".data <:+: s.data
          ∨ "ES".data <:+: s.data ∨ "es".data <:+: s.data) := by
    simp [strContains_iff, or_assoc]
  refine ⟨fun h => ?_, fun h1 h2 => ?_, fun h1 h2 => ?_⟩
  · rw [e, if_pos (hH.mpr h)]
  · rw [e, if_neg (fun hc => h1 (hH.mp hc)), if_pos (hR.mpr h2)]
  · rw [e, if_neg (fun hc => h1 (hH.mp hc)), if_neg (fun hc => h2 (hR.mp hc))]

/-- C1 witness: `class(Retain, "hs256")` is `Hmac` via the amended
marker-scan theorem. -/
theorem classifier_marker_scan_witness :
    sigClass SignatureTypes.Retain "hs256" = SignatureClass.Hmac :=
  (classifier_marker_scan SignatureTypes.Retain "hs256" (Or.inr rfl)).1
    (Or.inr ((strContains_iff "hs256" "hs").mp rfl))

set_option maxRecDepth 100000 in
/-- C2: the three HMAC known vectors of the repository's tests:
`calc_signature` on the fixed signing inputs with secret `"password"`
returns the fixed unpadded base64url HMAC-SHA-256/384/512 tags,
whatever the original signature argument is. -/
theorem known_vectors_hmac (orig : String) :
    calcSignature "eyJhbGciOiJIUzI1NiIsInR5cGUiOiJKV1QifQ.eyJoZWxsbyI6IndvcmxkIn0"
        "password" orig SignatureTypes.Hs256
      = Except.ok "jW6hG22ajnhgpvKKvkWUVI8CYobL7DOdmp6KlGYAfZ8" ∧
    calcSignature "eyJhbGciOiJIUzM4NCIsInR5cGUiOiJKV1QifQ.eyJoZWxsbyI6IndvcmxkIn0"
        "password" orig SignatureTypes.Hs384
      = Except.ok "atUQ3QNbGaBYU27YAs-Bc9nmkGyUDqb8PM_Qg8THWWcaaIU9S5U8WlvDe6restjn" ∧
    calcSignature "eyJhbGciOiJIUzUxMiIsInR5cGUiOiJKV1QifQ.eyJoZWxsbyI6IndvcmxkIn0"
        "password" orig SignatureTypes.Hs512
      = Except.ok "V4-Fm9ukreVKpfGf3Yxs9p-thbDvGWlRcPBXdE7qrEWu1CePOFoXJZixJxmCDKGF_A8UgaObbw4biMgEeiEzZQ" :=
  ⟨rfl, rfl, rfl⟩

/-- C3: `calc_signature` with the `Retain` identifier returns the
original signature verbatim, for every signing input, secret and
original signature, and cannot fail. -/
theorem retain_returns_original (payload secret orig : String) :
    calcSignature payload secret orig SignatureTypes.Retain = Except.ok orig := rfl

/-- C4: `calc_signature` with the `None` identifier returns the empty
string, for every signing input, secret and original signature. -/
theorem none_returns_empty (payload secret orig : String) :
    calcSignature payload secret orig SignatureTypes.None = Except.ok "" := rfl

/-- C5: resolver round trip: for every catalog identifier other than
`Auto`, any header `alg` string whose uppercasing equals that
identifier's display form resolves to exactly that identifier; and a
header whose uppercasing matches no non-`Auto` identifier's display
form resolves to `none`. -/
theorem resolver_roundtrip (t : SignatureTypes) (s : String)
    (ht : t ≠ SignatureTypes.Auto) :
    (toUppercase s = sigDisplay t → fromHeader s = some t) ∧
    ((∀ u : SignatureTypes, u ≠ SignatureTypes.Auto → toUppercase s ≠ sigDisplay u) →
      fromHeader s = none) := by
  constructor
  · intro h
    cases t with
    | Auto => exact absurd rfl ht
    | Retain => simp_all [fromHeader, firstMatch, sigIter, sigDisplay]
    | None => simp_all [fromHeader, firstMatch, sigIter, sigDisplay]
    | Hs256 => simp_all [fromHeader, firstMatch, sigIter, sigDisplay]
    | Hs384 => simp_all [fromHeader, firstMatch, sigIter, sigDisplay]
    | Hs512 => simp_all [fromHeader, firstMatch, sigIter, sigDisplay]
  · intro hn
    have h2 := hn SignatureTypes.Retain (by simp)
    have h3 := hn SignatureTypes.None (by simp)
    have h4 := hn SignatureTypes.Hs256 (by simp)
    have h5 := hn SignatureTypes.Hs384 (by simp)
    have h6 := hn SignatureTypes.Hs512 (by simp)
    simp only [sigDisplay] at h2 h3 h4 h5 h6
    by_cases hA : toUppercase s = "Auto"
    · simp [fromHeader, firstMatch, sigIter, sigDisplay, hA]
    · simp [fromHeader, firstMatch, sigIter, sigDisplay, hA, h2, h3, h4, h5, h6]

/-- C5 witness: `"hs256"` resolves to the `Hs256` identifier. -/
theorem resolver_roundtrip_witness : fromHeader "hs256" = some SignatureTypes.Hs256 :=
  (resolver_roundtrip SignatureTypes.Hs256 "hs256" (by decide)).1 (by decide)

/-- C6: a header whose `alg` uppercases to `"AUTO"` resolves to `none`,
and `from_header` never returns `some Auto` for any header at all. -/
theorem resolver_excludes_auto (s : String) :
    (toUppercase s = "AUTO" → fromHeader s = none) ∧
    ∀ t : SignatureTypes, fromHeader s = some t → t ≠ SignatureTypes.Auto := by
  constructor
  · intro h
    simp [fromHeader, firstMatch, sigIter, sigDisplay, h]
  · intro t h ht
    subst ht
    by_cases hA : firstMatch (toUppercase s) sigIter = SignatureTypes.Auto
    · simp [fromHeader, hA] at h
    · simp [fromHeader, hA] at h

/-- C6 witness: the header string `"AuTo"` resolves to the absence
value. -/
theorem resolver_excludes_auto_witness : fromHeader "AuTo" = none :=
  (resolver_excludes_auto "AuTo").1 (by decide)

/-- C7: `calc_signature` fails exactly on the `Auto` identifier (the
only catalog value outside `{Retain, None, HS256, HS384, HS512}`), and
that failure is the unrecognised-signature-type error carrying the
rejected identifier's display form. -/
theorem unrecognised_only_auto (t : SignatureTypes) (p s o : String) :
    (resultIsOk (calcSignature p s o t) = false ↔ t = SignatureTypes.Auto) ∧
    calcSignature p s o SignatureTypes.Auto
      = Except.error ("Unrecognised signature type: " ++ sigDisplay SignatureTypes.Auto) := by
  constructor
  · cases t <;> simp [calcSignature, resultIsOk]
  · rfl

/-- C7 witness: on the `Auto` identifier the engine's result is not
`Ok`. -/
theorem unrecognised_only_auto_witness :
    resultIsOk (calcSignature "a" "b" "c" SignatureTypes.Auto) = false :=
  (unrecognised_only_auto SignatureTypes.Auto "a" "b" "c").1.mpr rfl

/-- C8: the explicit identifiers ignore the raw header string:
`class(None, s) = Other` and `class(HS256/384/512, s) = Hmac` for every
string `s` (and `class` is a total function). -/
theorem explicit_identifier_classes (s : String) :
    sigClass SignatureTypes.None s = SignatureClass.Other ∧
    sigClass SignatureTypes.Hs256 s = SignatureClass.Hmac ∧
    sigClass SignatureTypes.Hs384 s = SignatureClass.Hmac ∧
    sigClass SignatureTypes.Hs512 s = SignatureClass.Hmac :=
  ⟨rfl, rfl, rfl, rfl⟩

/-- C9: on the `Retain` and `None` paths `calc_signature` returns `Ok`
for every signing input, secret and original signature: the error
branches are unreachable there. -/
theorem retain_none_always_ok (p s o : String) :
    resultIsOk (calcSignature p s o SignatureTypes.Retain) = true ∧
    resultIsOk (calcSignature p s o SignatureTypes.None) = true :=
  ⟨rfl, rfl⟩

/-- C10: whenever `calc_signature` returns `Ok(r)` the string `r` has
length exactly 43 for `HS256`, 64 for `HS384` and 86 for `HS512` (the
unpadded base64url encodings of 32-, 48- and 64-byte MAC tags), for
every signing input and secret. -/
theorem hmac_output_lengths (p s o r : String) :
    (calcSignature p s o SignatureTypes.Hs256 = Except.ok r → r.length = 43) ∧
    (calcSignature p s o SignatureTypes.Hs384 = Except.ok r → r.length = 64) ∧
    (calcSignature p s o SignatureTypes.Hs512 = Except.ok r → r.length = 86) := by
  refine ⟨fun h => ?_, fun h => ?_, fun h => ?_⟩
  · simp only [calcSignature, Except.ok.injEq] at h
    subst h
    show (b64urlNoPadChars (hmacSha256 (utf8Bytes s) (utf8Bytes p))).length = 43
    rw [b64urlNoPadChars_length, hmacSha256_length]
    decide
  · simp only [calcSignature, Except.ok.injEq] at h
    subst h
    show (b64urlNoPadChars (hmacSha384 (utf8Bytes s) (utf8Bytes p))).length = 64
    rw [b64urlNoPadChars_length, hmacSha384_length]
    decide
  · simp only [calcSignature, Except.ok.injEq] at h
    subst h
    show (b64urlNoPadChars (hmacSha512 (utf8Bytes s) (utf8Bytes p))).length = 86
    rw [b64urlNoPadChars_length, hmacSha512_length]
    decide

set_option maxRecDepth 100000 in
/-- C10 witness: the known HS256 vector's output indeed has 43
characters. -/
theorem hmac_output_lengths_witness :
    ("jW6hG22ajnhgpvKKvkWUVI8CYobL7DOdmp6KlGYAfZ8" : String).length = 43 :=
  (hmac_output_lengths "eyJhbGciOiJIUzI1NiIsInR5cGUiOiJKV1QifQ.eyJoZWxsbyI6IndvcmxkIn0"
      "password" "" "jW6hG22ajnhgpvKKvkWUVI8CYobL7DOdmp6KlGYAfZ8").1 rfl

end Jwt
